import Mathlib

/-!
Verification of the reporting and aggregation engine of the expense tracker
(`expense-tracker.py`, `web_app.py`).

The store keeps timestamps as canonical `"YYYY-MM-DD HH:MM:SS"` strings and
compares them lexicographically in SQL (`date >= ?`, `date < ?`).  We model a
timestamp as a record of its six numeric fields and compare the fields
lexicographically, which agrees with the string comparison on canonical
zero-padded timestamps.  Monetary amounts are modelled as exact rationals.
-/

namespace ExpenseTracker

/-- The fixed category list (`CATEGORIES` in the source, line 19). -/
def CATEGORIES : List String :=
  ["Food", "Transport", "Entertainment", "Shopping", "Bills", "Other"]

/-- A timestamp, the six numeric fields of `"YYYY-MM-DD HH:MM:SS"`. -/
structure DateTime where
  year : Nat
  month : Nat
  day : Nat
  hour : Nat
  minute : Nat
  second : Nat
deriving DecidableEq, Repr

/-- Lexicographic strict comparison of timestamps: the order of the canonical
zero-padded timestamp strings used by the store. -/
def DateTime.blt (a b : DateTime) : Bool :=
  if a.year = b.year then
    if a.month = b.month then
      if a.day = b.day then
        if a.hour = b.hour then
          if a.minute = b.minute then decide (a.second < b.second)
          else decide (a.minute < b.minute)
        else decide (a.hour < b.hour)
      else decide (a.day < b.day)
    else decide (a.month < b.month)
  else decide (a.year < b.year)

/-- Lexicographic non-strict comparison of timestamps. -/
def DateTime.ble (a b : DateTime) : Bool :=
  if a.year = b.year then
    if a.month = b.month then
      if a.day = b.day then
        if a.hour = b.hour then
          if a.minute = b.minute then decide (a.second ≤ b.second)
          else decide (a.minute < b.minute)
        else decide (a.hour < b.hour)
      else decide (a.day < b.day)
    else decide (a.month < b.month)
  else decide (a.year < b.year)

/-- An expense record (row of the `expenses` table).  `owner` is the
`user_id` column of the multi-user variant; the single-user CLI functions
ignore it. -/
structure Expense where
  id : Nat
  amount : Rat
  description : String
  category : String
  date : DateTime
  owner : Nat
deriving DecidableEq, Repr

/-- First instant of month `m` of year `y`: the code's
`start_date = f"{year}-{month:02d}-01 00:00:00"`. -/
def monthStart (y m : Nat) : DateTime := ⟨y, m, 1, 0, 0, 0⟩

/-- The code's end-exclusive bound: `f"{year+1}-01-01 00:00:00"` when
`month == 12`, else `f"{year}-{month+1:02d}-01 00:00:00"`
(lines 224-227, 269-272 of `expense-tracker.py`; lines 321-324, 398-401 of
`web_app.py`). -/
def nextMonthStart (y m : Nat) : DateTime :=
  if m = 12 then ⟨y + 1, 1, 1, 0, 0, 0⟩ else ⟨y, m + 1, 1, 0, 0, 0⟩

/-- The month-selection predicate `date >= start_date AND date < end_date`
shared by the monthly report and the yearly summary. -/
def inMonth (y m : Nat) (t : DateTime) : Bool :=
  (monthStart y m).ble t && t.blt (nextMonthStart y m)

/-- A timestamp with its calendar fields in range (every timestamp the store
writes satisfies this). -/
def DateTime.wf (t : DateTime) : Prop :=
  1 ≤ t.month ∧ t.month ≤ 12 ∧ 1 ≤ t.day ∧ t.day ≤ 31 ∧
    t.hour ≤ 23 ∧ t.minute ≤ 59 ∧ t.second ≤ 59

instance (t : DateTime) : Decidable t.wf := by
  unfold DateTime.wf
  infer_instance

/-- Does `needle` occur at the head of `hay`? -/
def leadMatch : List Char → List Char → Bool
  | [], _ => true
  | _ :: _, [] => false
  | a :: as, b :: bs => a == b && leadMatch as bs

/-- Does `needle` occur as a contiguous run somewhere in `hay`? -/
def occursIn (needle : List Char) : List Char → Bool
  | [] => leadMatch needle []
  | b :: bs => leadMatch needle (b :: bs) || occursIn needle bs

/-- Model of `LOWER(hay) LIKE LOWER('%term%')`: case-insensitive substring containment
(SQLite's `LOWER` folds ASCII only, as does `Char.toLower`). -/
def containsCI (hay term : String) : Bool :=
  occursIn (term.data.map Char.toLower) (hay.data.map Char.toLower)

/-- Function `advanced_search` (`expense-tracker.py` lines 170-212): dynamic `WHERE`
clause, one conjunct per supplied criterion; the term criterion is
`LOWER(description) LIKE LOWER('%term%')`. -/
def advanced_search (min_amount max_amount : Option Rat)
    (category search_term : Option String) (es : List Expense) : List Expense :=
  es.filter fun e =>
    (match min_amount with | none => true | some a => decide (a ≤ e.amount)) &&
    (match max_amount with | none => true | some b => decide (e.amount ≤ b)) &&
    (match category with | none => true | some c => e.category == c) &&
    (match search_term with | none => true | some t => containsCI e.description t)

/-- Function `search_expenses_in_db` (`expense-tracker.py` lines 140-168): matches the
term against description OR category, case-insensitively. -/
def search_expenses_in_db (search_term : String) (es : List Expense) : List Expense :=
  es.filter fun e =>
    containsCI e.description search_term || containsCI e.category search_term

/-- The records falling in the month window `[start_date, end_date)`. -/
def monthExpenses (y m : Nat) (es : List Expense) : List Expense :=
  es.filter fun e => inMonth y m e.date

/-- One row of the monthly report's per-category query
(`SELECT category, SUM(amount), COUNT(*), AVG(amount) ... GROUP BY category`). -/
structure CatStat where
  category : String
  total : Rat
  count : Nat
  average : Rat
deriving DecidableEq, Repr

/-- The aggregate row for one category group. -/
def catStat (sel : List Expense) (c : String) : CatStat :=
  let g := sel.filter fun e => e.category == c
  let t := (g.map fun e => e.amount).sum
  ⟨c, t, g.length, t / (g.length : Rat)⟩

/-- Insertion step for sorting by `total` descending (`ORDER BY total DESC`). -/
def insertDesc (r : CatStat) : List CatStat → List CatStat
  | [] => [r]
  | x :: xs => if x.total ≤ r.total then r :: x :: xs else x :: insertDesc r xs

/-- Sort by `total` descending. -/
def sortDesc : List CatStat → List CatStat
  | [] => []
  | x :: xs => insertDesc x (sortDesc xs)

/-- The `GROUP BY category ORDER BY total DESC` result: one row per category
value occurring in the selection. -/
def category_stats (sel : List Expense) : List CatStat :=
  sortDesc (((sel.map fun e => e.category).dedup).map (catStat sel))

/-- Minimum of a list of amounts (`MIN(amount)`: `NULL` on no rows). -/
def listMin : List Rat → Option Rat
  | [] => none
  | a :: as =>
    match listMin as with
    | none => some a
    | some b => some (if a ≤ b then a else b)

/-- Maximum of a list of amounts (`MAX(amount)`: `NULL` on no rows). -/
def listMax : List Rat → Option Rat
  | [] => none
  | a :: as =>
    match listMax as with
    | none => some a
    | some b => some (if b ≤ a then a else b)

/-- The monthly report's overall row
(`SELECT SUM(amount), COUNT(*), AVG(amount), MIN(amount), MAX(amount)`).
`SUM`/`AVG`/`MIN`/`MAX` are `NULL` when no row matches; `COUNT(*)` is always
a number. -/
structure OverallRow where
  total : Option Rat
  count : Option Nat
  average : Option Rat
  minimum : Option Rat
  maximum : Option Rat
deriving DecidableEq, Repr

/-- Evaluate the overall-statistics query on a selection. -/
def overall_stats (sel : List Expense) : OverallRow :=
  match sel with
  | [] => ⟨none, some 0, none, none, none⟩
  | _ :: _ =>
    let amts := sel.map fun e => e.amount
    ⟨some amts.sum, some sel.length, some (amts.sum / (sel.length : Rat)),
      listMin amts, listMax amts⟩

/-- Function `generate_monthly_report` (`expense-tracker.py` lines 215-256; the same
two queries back `monthly_report` in `web_app.py` lines 310-345). -/
def generate_monthly_report (y m : Nat) (es : List Expense) :
    List CatStat × OverallRow :=
  (category_stats (monthExpenses y m es), overall_stats (monthExpenses y m es))

/-- A displayed category line of `show_monthly_report`, with the derived
percentage. -/
structure CatLine where
  category : String
  total : Rat
  count : Nat
  average : Rat
  percentage : Rat
deriving DecidableEq, Repr

/-- Python's `/` on numbers: raises `ZeroDivisionError` on a zero divisor. -/
def pyDiv (a b : Rat) : Except String Rat :=
  if b = 0 then Except.error "ZeroDivisionError" else Except.ok (a / b)

/-- The `for cat_stat in category_stats` loop of `show_monthly_report`:
`percentage = (total / overall_stats[0]) * 100` per row; the first zero
divisor raises and aborts the loop, as in Python. -/
def catLines (ot : Rat) : List CatStat → Except String (List CatLine)
  | [] => Except.ok []
  | c :: cs =>
    match pyDiv c.total ot with
    | Except.error msg => Except.error msg
    | Except.ok q =>
      match catLines ot cs with
      | Except.error msg => Except.error msg
      | Except.ok ls => Except.ok (⟨c.category, c.total, c.count, c.average, q * 100⟩ :: ls)

/-- Function `show_monthly_report` (`expense-tracker.py` lines 359-401): bails out
with the no-data message when the overall total is `None`; otherwise derives
`percentage = (total / overall_stats[0]) * 100` for every category row. -/
def show_monthly_report (y m : Nat) (es : List Expense) :
    Except String (Option (OverallRow × List CatLine)) :=
  let r := generate_monthly_report y m es
  match r.2.total with
  | none => Except.ok none
  | some ot =>
    match catLines ot r.1 with
    | Except.error msg => Except.error msg
    | Except.ok ls => Except.ok (some (r.2, ls))

/-- One entry of the yearly summary. -/
structure MonthEntry where
  month : Nat
  total : Rat
  count : Nat
deriving DecidableEq, Repr

/-- Function `generate_yearly_summary` (`expense-tracker.py` lines 259-292; same loop
in `web_app.py` lines 386-428): one `SUM`/`COUNT` query per month 1..12,
`NULL` totals coalesced to 0. -/
def generate_yearly_summary (y : Nat) (es : List Expense) : List MonthEntry :=
  (List.range 12).map fun i =>
    let sel := monthExpenses y (i + 1) es
    ⟨i + 1, (sel.map fun e => e.amount).sum, sel.length⟩

/-- The value `yearly_total = sum(m['total'] for m in monthly_totals)`
(`show_yearly_summary`, line 418). -/
def yearly_total (y : Nat) (es : List Expense) : Rat :=
  ((generate_yearly_summary y es).map fun e => e.total).sum

/-- The average line of `show_yearly_summary`: printed as
`yearly_total / 12` (line 436), but only reached when `yearly_total != 0`
(lines 421-423 return early on a zero yearly total). -/
def yearly_reported_average (y : Nat) (es : List Expense) : Option Rat :=
  if yearly_total y es = 0 then none else some (yearly_total y es / 12)

/-- Flash message kind of the web handlers. -/
inductive Flash
  | success
  | failure
deriving DecidableEq, Repr

/-- Route handler `delete_expense` (`web_app.py` lines 283-302): select the row by
`id AND user_id`; delete and flash success if found, otherwise flash the
not-found/permission error and touch nothing. -/
def web_delete_expense (uid i : Nat) (store : List Expense) :
    List Expense × Flash :=
  match store.find? (fun e => e.id == i && e.owner == uid) with
  | some _ => (store.filter (fun e => !(e.id == i && e.owner == uid)), Flash.success)
  | none => (store, Flash.failure)

/-- Route handler `edit_expense`, POST branch (`web_app.py` lines 249-281): select the row
by `id AND user_id`; update amount/description/category if found, otherwise
flash the not-found/permission error and touch nothing. -/
def web_edit_expense (uid i : Nat) (amt : Rat) (desc cat : String)
    (store : List Expense) : List Expense × Flash :=
  match store.find? (fun e => e.id == i && e.owner == uid) with
  | none => (store, Flash.failure)
  | some _ =>
    (store.map fun e =>
      if e.id == i && e.owner == uid then
        { e with amount := amt, description := desc, category := cat }
      else e,
     Flash.success)

/-- A calendar date, as parsed from a `YYYY-MM-DD` input. -/
structure SDate where
  year : Nat
  month : Nat
  day : Nat
deriving DecidableEq, Repr

/-- The parsed start datetime (`datetime.strptime(start, "%Y-%m-%d")`). -/
def SDate.atMidnight (d : SDate) : DateTime := ⟨d.year, d.month, d.day, 0, 0, 0⟩

/-- The adjusted end datetime
(`end_date.replace(hour=23, minute=59, second=59)`). -/
def SDate.atDayEnd (d : SDate) : DateTime := ⟨d.year, d.month, d.day, 23, 59, 59⟩

/-- Custom range branch of `view_expenses_by_date`
(`expense-tracker.py` lines 695-714): end is widened to 23:59:59, then
`start_date > end_date` is rejected before filtering. -/
def view_expenses_by_date_custom (s e : SDate) (es : List Expense) :
    Except String (List Expense) :=
  let sd := s.atMidnight
  let ed := e.atDayEnd
  if ed.blt sd then Except.error "Start date must be before end date"
  else Except.ok (es.filter fun x => sd.ble x.date && x.date.ble ed)

/-- Custom range branch of `export_to_excel`
(`expense-tracker.py` lines 1389-1398): queries
`date >= start || ' 00:00:00' AND date <= end || ' 23:59:59'` with no
start/end validation at all. -/
def export_custom_range (s e : SDate) (es : List Expense) : List Expense :=
  es.filter fun x => (s.atMidnight).ble x.date && x.date.ble (e.atDayEnd)

/-- Model of `strftime('%Y-%m', date) = strftime('%Y-%m', t)`: year-month equality. -/
def ymEq (y m : Nat) (t : DateTime) : Bool := t.year == y && t.month == m

/-- Sum of amounts of `c`-category records in month `(y, m)` — one entry of
the per-category dictionaries of `visualize_comparison_chart`, with
`dict.get(cat, 0)` giving 0 for an absent category. -/
def cat_month_total (y m : Nat) (c : String) (es : List Expense) : Rat :=
  ((es.filter fun e => ymEq y m e.date && e.category == c).map
    fun e => e.amount).sum

/-- Previous calendar month of `(y, m)`. -/
def prevMonth (y m : Nat) : Nat × Nat := if m = 1 then (y - 1, 12) else (y, m - 1)

/-- The two summary totals of `visualize_comparison_chart`
(`expense-tracker.py` lines 1332-1333): sums of the per-category values over
the fixed `CATEGORIES` list, this month first. -/
def comparison_totals (y m : Nat) (es : List Expense) : Rat × Rat :=
  ((CATEGORIES.map fun c => cat_month_total y m c es).sum,
   (CATEGORIES.map fun c =>
     cat_month_total (prevMonth y m).1 (prevMonth y m).2 c es).sum)

/-- What the comparison summary reports about the change. -/
inductive ChangeReport
  | change (pct : Rat)
  | noPriorData
deriving DecidableEq, Repr

/-- The percent-change logic of `visualize_comparison_chart`
(`expense-tracker.py` lines 1339-1346): computed and shown only under
`last_total > 0`; otherwise no change line is printed. -/
def comparison_change (y m : Nat) (es : List Expense) : ChangeReport :=
  if 0 < (comparison_totals y m es).2 then
    ChangeReport.change
      (((comparison_totals y m es).1 - (comparison_totals y m es).2)
        / (comparison_totals y m es).2 * 100)
  else ChangeReport.noPriorData

/-- Subtotal of one category over a record set:
`sum(e['amount'] for e in cat_expenses)`. -/
def catSubtotal (f : List Expense) (c : String) : Rat :=
  ((f.filter fun e => e.category == c).map fun e => e.amount).sum

/-- The category-breakdown loop (`expense-tracker.py` lines 736-742 and
1902-1908): walk `CATEGORIES` in order, keep categories with at least one
matching record (`if len(cat_expenses) > 0`), pair each with its subtotal. -/
def category_breakdown (filtered : List Expense) : List (String × Rat) :=
  CATEGORIES.filterMap fun c =>
    if (filtered.filter fun e => e.category == c).length = 0 then none
    else some (c, catSubtotal filtered c)

/-- Date-level non-strict order (comparison of `YYYY-MM-DD` strings). -/
def SDate.ble (a b : SDate) : Bool :=
  if a.year = b.year then
    if a.month = b.month then decide (a.day ≤ b.day)
    else decide (a.month < b.month)
  else decide (a.year < b.year)

/-- The calendar date of a timestamp. -/
def SDate.of (t : DateTime) : SDate := ⟨t.year, t.month, t.day⟩


/-- Spec-side reading of the `advancedSearch` contract: the conjunction of
all supplied, non-null criteria, inclusive amount bounds, unsupplied
criteria not applied. -/
def spec_matches_criteria (min_amount max_amount : Option Rat)
    (category search_term : Option String) (e : Expense) : Prop :=
  (∀ a, min_amount = some a → a ≤ e.amount) ∧
  (∀ b, max_amount = some b → e.amount ≤ b) ∧
  (∀ c, category = some c → e.category = c) ∧
  (∀ t, search_term = some t → containsCI e.description t = true)

theorem DateTime.blt_iff (a b : DateTime) :
    a.blt b = true ↔
      a.year < b.year ∨ (a.year = b.year ∧
        (a.month < b.month ∨ (a.month = b.month ∧
          (a.day < b.day ∨ (a.day = b.day ∧
            (a.hour < b.hour ∨ (a.hour = b.hour ∧
              (a.minute < b.minute ∨
                (a.minute = b.minute ∧ a.second < b.second))))))))) := by
  unfold DateTime.blt
  split_ifs <;> simp_all

theorem DateTime.ble_iff (a b : DateTime) :
    a.ble b = true ↔
      a.year < b.year ∨ (a.year = b.year ∧
        (a.month < b.month ∨ (a.month = b.month ∧
          (a.day < b.day ∨ (a.day = b.day ∧
            (a.hour < b.hour ∨ (a.hour = b.hour ∧
              (a.minute < b.minute ∨
                (a.minute = b.minute ∧ a.second ≤ b.second))))))))) := by
  unfold DateTime.ble
  split_ifs <;> simp_all

theorem inMonth_iff (y m : Nat) (t : DateTime)
    (hm1 : 1 ≤ m) (hm2 : m ≤ 12) (ht : t.wf) :
    inMonth y m t = true ↔ t.year = y ∧ t.month = m := by
  obtain ⟨h1, h2, h3, _, _, _, _⟩ := ht
  unfold inMonth monthStart nextMonthStart
  rcases Nat.decEq m 12 with hm | hm
  · simp only [if_neg hm, Bool.and_eq_true, DateTime.ble_iff, DateTime.blt_iff]
    omega
  · subst hm
    rw [if_pos rfl]
    simp only [Bool.and_eq_true, DateTime.ble_iff, DateTime.blt_iff]
    omega

/-- C1: for every year `y` and month `m` in 1..12, the monthly/yearly report
selection keeps exactly the records whose timestamp lies in the half-open
window `[monthStart y m, nextMonthStart y m)` — where the next month of
December is January of `y + 1` — and, for well-formed timestamps, that window
contains precisely the timestamps of month `m` of year `y`; in particular a
record at the last instant `23:59:59` of the month's last day is kept. -/
theorem claim_C1_month_window (y m : Nat) (es : List Expense)
    (hm1 : 1 ≤ m) (hm2 : m ≤ 12) (hwf : ∀ e ∈ es, e.date.wf) :
    (∀ e, e ∈ monthExpenses y m es ↔
      e ∈ es ∧ (monthStart y m).ble e.date = true ∧
        e.date.blt (nextMonthStart y m) = true)
    ∧ (∀ e ∈ es, e ∈ monthExpenses y m es ↔ e.date.year = y ∧ e.date.month = m) := by
  constructor
  · intro e
    simp [monthExpenses, List.mem_filter, inMonth]
  · intro e he
    rw [monthExpenses, List.mem_filter]
    simp only [he, true_and]
    exact inMonth_iff y m e.date hm1 hm2 (hwf e he)

/-- Witness for C1: a record at the last instant of January 2025 is selected
by the January 2025 report. -/
theorem claim_C1_month_window_witness :
    (⟨1, 50, "rent", "Bills", ⟨2025, 1, 31, 23, 59, 59⟩, 1⟩ : Expense) ∈
      monthExpenses 2025 1 [⟨1, 50, "rent", "Bills", ⟨2025, 1, 31, 23, 59, 59⟩, 1⟩] :=
  ((claim_C1_month_window 2025 1
      [⟨1, 50, "rent", "Bills", ⟨2025, 1, 31, 23, 59, 59⟩, 1⟩]
      (by decide) (by decide) (by decide)).2
    _ (List.mem_singleton.mpr rfl)).mpr ⟨rfl, rfl⟩

/-- C2: for distinct owners `a ≠ b`, if every record with id `i` is owned by
`a`, then a delete or edit of `i` requested by `b` flashes the
not-found/permission error and returns the store unchanged — never a silent
success. -/
theorem claim_C2_cross_owner_denied (a b i : Nat) (store : List Expense)
    (hab : a ≠ b) (hown : ∀ e ∈ store, e.id = i → e.owner = a) :
    web_delete_expense b i store = (store, Flash.failure)
    ∧ ∀ amt desc cat,
        web_edit_expense b i amt desc cat store = (store, Flash.failure) := by
  have hnone : store.find? (fun e => e.id == i && e.owner == b) = none := by
    rw [List.find?_eq_none]
    intro e he h
    simp only [Bool.and_eq_true, beq_iff_eq] at h
    exact hab ((hown e he h.1) ▸ h.2)
  constructor
  · rw [web_delete_expense, hnone]
  · intro amt desc cat
    rw [web_edit_expense, hnone]

/-- Witness for C2: owner 2 cannot delete record 7, which belongs to
owner 1; the store is untouched and the error is flashed. -/
theorem claim_C2_cross_owner_denied_witness :
    web_delete_expense 2 7
        [⟨7, 25, "coffee", "Food", ⟨2025, 1, 5, 9, 0, 0⟩, 1⟩]
      = ([⟨7, 25, "coffee", "Food", ⟨2025, 1, 5, 9, 0, 0⟩, 1⟩], Flash.failure) :=
  (claim_C2_cross_owner_denied 1 2 7
      [⟨7, 25, "coffee", "Food", ⟨2025, 1, 5, 9, 0, 0⟩, 1⟩]
      (by decide) (by decide)).1

/-- C3: `advanced_search` returns exactly the records satisfying the
conjunction of the supplied criteria (inclusive amount bounds, unsupplied
criteria not applied); and with both bounds supplied and `min > max` the
result is the empty list, as a normal outcome. -/
theorem claim_C3_advanced_search_conj (mn mx : Option Rat)
    (c t : Option String) (es : List Expense) :
    (∀ e, e ∈ advanced_search mn mx c t es ↔
      e ∈ es ∧ spec_matches_criteria mn mx c t e)
    ∧ (∀ a b, mn = some a → mx = some b → b < a →
        advanced_search mn mx c t es = []) := by
  constructor
  · intro e
    rcases mn with _ | a <;> rcases mx with _ | b <;>
      rcases c with _ | c0 <;> rcases t with _ | t0 <;>
      simp [advanced_search, List.mem_filter, spec_matches_criteria, and_assoc]
  · rintro a b rfl rfl hba
    rw [advanced_search, List.filter_eq_nil_iff]
    intro e _ hcond
    simp only [Bool.and_eq_true, decide_eq_true_eq] at hcond
    exact absurd (le_trans hcond.1.1.1 hcond.1.1.2) (not_le.mpr hba)

/-- Witness for C3: `min = 100, max = 50` yields the empty set on a store
holding a 75-amount record. -/
theorem claim_C3_advanced_search_conj_witness :
    advanced_search (some 100) (some 50) none none
      [⟨1, 75, "shoes", "Shopping", ⟨2025, 4, 2, 12, 0, 0⟩, 1⟩] = [] :=
  (claim_C3_advanced_search_conj (some 100) (some 50) none none
      [⟨1, 75, "shoes", "Shopping", ⟨2025, 4, 2, 12, 0, 0⟩, 1⟩]).2
    100 50 rfl rfl (by norm_num)

/-- C10: the term criterion of `advanced_search` checks the description
only — a record whose category, but not description, contains the term is
not returned — while the simple text search matches description OR
category and does return it. -/
theorem claim_C10_term_description_only (es : List Expense) (term : String)
    (e : Expense) (he : e ∈ es)
    (hcat : containsCI e.category term = true)
    (hdesc : containsCI e.description term = false) :
    e ∉ advanced_search none none none (some term) es
    ∧ e ∈ search_expenses_in_db term es := by
  constructor
  · intro hmem
    rw [advanced_search, List.mem_filter] at hmem
    simp only [Bool.true_and, hdesc] at hmem
    exact Bool.false_ne_true hmem.2
  · rw [search_expenses_in_db, List.mem_filter]
    exact ⟨he, by rw [hdesc, hcat, Bool.or_true]⟩

/-- Witness for C10: term `"oo"` occurs in the category `"Food"` but not in
the description `"ab"`; the record is missed by `advanced_search` and found
by the simple search. -/
theorem claim_C10_term_description_only_witness :
    (⟨1, 5, "ab", "Food", ⟨2025, 1, 1, 0, 0, 0⟩, 1⟩ : Expense) ∉
      advanced_search none none none (some "oo")
        [⟨1, 5, "ab", "Food", ⟨2025, 1, 1, 0, 0, 0⟩, 1⟩]
    ∧ (⟨1, 5, "ab", "Food", ⟨2025, 1, 1, 0, 0, 0⟩, 1⟩ : Expense) ∈
      search_expenses_in_db "oo"
        [⟨1, 5, "ab", "Food", ⟨2025, 1, 1, 0, 0, 0⟩, 1⟩] :=
  claim_C10_term_description_only
    [⟨1, 5, "ab", "Food", ⟨2025, 1, 1, 0, 0, 0⟩, 1⟩] "oo"
    ⟨1, 5, "ab", "Food", ⟨2025, 1, 1, 0, 0, 0⟩, 1⟩
    (List.mem_singleton.mpr rfl) (by decide) (by decide)

/-- C4: the yearly summary has exactly 12 entries, labelled month 1..12 in
order; a month with no matching records reports total 0 and count 0; the
yearly total is the sum of the 12 monthly totals; and whenever
`show_yearly_summary` reports an average per month it is the yearly total
divided by 12 (never by the number of non-zero months). -/
theorem claim_C4_yearly_summary_shape (y : Nat) (es : List Expense) :
    (generate_yearly_summary y es).length = 12
    ∧ (∀ i (h : i < (generate_yearly_summary y es).length),
        ((generate_yearly_summary y es).get ⟨i, h⟩).month = i + 1)
    ∧ (∀ i (h : i < (generate_yearly_summary y es).length),
        (∀ e ∈ es, inMonth y (i + 1) e.date = false) →
          ((generate_yearly_summary y es).get ⟨i, h⟩).total = 0
          ∧ ((generate_yearly_summary y es).get ⟨i, h⟩).count = 0)
    ∧ yearly_total y es
        = ((generate_yearly_summary y es).map fun en => en.total).sum
    ∧ (∀ r, yearly_reported_average y es = some r → r = yearly_total y es / 12) := by
  refine ⟨by simp [generate_yearly_summary], ?_, ?_, rfl, ?_⟩
  · intro i h
    simp [generate_yearly_summary]
  · intro i h hnone
    have hsel : es.filter (fun e => inMonth y (i + 1) e.date) = [] :=
      List.filter_eq_nil_iff.mpr (fun e he => by simp [hnone e he])
    constructor <;> simp [generate_yearly_summary, monthExpenses, hsel]
  · intro r hr
    rw [yearly_reported_average] at hr
    split_ifs at hr
    cases hr
    rfl

/-- Witness for C4: on the empty store, January of 2025 (an empty month)
reports total 0. -/
theorem claim_C4_yearly_summary_shape_witness :
    ((generate_yearly_summary 2025 []).get
        ⟨0, by simp [generate_yearly_summary]⟩).total = 0 :=
  ((claim_C4_yearly_summary_shape 2025 []).2.2.1 0
    (by simp [generate_yearly_summary]) (by intro e he; cases he)).1

/-- C7 counterexample: the overall row of a month with no matching records
has `count = some 0` — the count is reported as the number zero, not as an
absent value, so the claim that all five overall statistics are absent is
false. -/
theorem claim_C7_counterexample :
    (generate_monthly_report 2025 1 []).2.count = some 0 := rfl

/-- C7 (amended): for a month with no matching records the overall row is
`(total := none, count := some 0, average := none, minimum := none,
maximum := none)` — total, average, min and max are absent but the count is
the number 0; a month with at least one matching record always has a
present total, so the absent total still distinguishes no-data from a
zero-total report. -/
theorem claim_C7_amended_no_data_row (y m : Nat) (es : List Expense) :
    (monthExpenses y m es = [] →
      (generate_monthly_report y m es).2 = ⟨none, some 0, none, none, none⟩)
    ∧ (monthExpenses y m es ≠ [] →
        ∃ q, (generate_monthly_report y m es).2.total = some q) := by
  constructor
  · intro h
    simp [generate_monthly_report, h, overall_stats]
  · intro h
    cases hsel : monthExpenses y m es with
    | nil => exact absurd hsel h
    | cons a l => simp [generate_monthly_report, hsel, overall_stats]

/-- Witness for the amended C7: January 2025 of the empty store. -/
theorem claim_C7_amended_no_data_row_witness :
    (generate_monthly_report 2025 1 []).2 = ⟨none, some 0, none, none, none⟩ :=
  (claim_C7_amended_no_data_row 2025 1 []).1 rfl

/-- C8 counterexample: with a last-month total of −50 (non-zero!) and a
this-month total of 50, the claim demands a computed percent change; the
code's guard is `last_total > 0`, so it reports the no-prior-data outcome
instead. -/
theorem claim_C8_counterexample :
    comparison_totals 2025 3
        [⟨1, 50, "a", "Food", ⟨2025, 3, 5, 10, 0, 0⟩, 1⟩,
         ⟨2, -50, "b", "Food", ⟨2025, 2, 5, 10, 0, 0⟩, 1⟩] = (50, -50)
    ∧ comparison_change 2025 3
        [⟨1, 50, "a", "Food", ⟨2025, 3, 5, 10, 0, 0⟩, 1⟩,
         ⟨2, -50, "b", "Food", ⟨2025, 2, 5, 10, 0, 0⟩, 1⟩]
      = ChangeReport.noPriorData := by
  have htot : comparison_totals 2025 3
      [⟨1, 50, "a", "Food", ⟨2025, 3, 5, 10, 0, 0⟩, 1⟩,
       ⟨2, -50, "b", "Food", ⟨2025, 2, 5, 10, 0, 0⟩, 1⟩] = (50, -50) := by
    simp [comparison_totals, cat_month_total, prevMonth, ymEq, CATEGORIES,
      List.filter_cons]
  refine ⟨htot, ?_⟩
  rw [comparison_change, htot]
  rw [if_neg (by norm_num)]

/-- C8 (amended): the percent change `100 × (this − last) / last` is
computed exactly when `last_total > 0`; whenever `last_total ≤ 0`
(including the zero case of the original claim) the comparison reports the
distinct no-prior-data outcome — never a division by zero, an infinity or
an exception. -/
theorem claim_C8_amended_guard (y m : Nat) (es : List Expense) :
    (0 < (comparison_totals y m es).2 →
      comparison_change y m es = ChangeReport.change
        (100 * ((comparison_totals y m es).1 - (comparison_totals y m es).2)
          / (comparison_totals y m es).2))
    ∧ ((comparison_totals y m es).2 ≤ 0 →
        comparison_change y m es = ChangeReport.noPriorData) := by
  constructor
  · intro h
    rw [comparison_change, if_pos h]
    congr 1
    ring
  · intro h
    rw [comparison_change, if_neg (not_lt.mpr h)]

/-- Witness for the amended C8: last month (February 2025) totals 40 > 0,
so the comparison for March 2025 reports a computed change. -/
theorem claim_C8_amended_guard_witness :
    comparison_change 2025 3 [⟨1, 40, "gym", "Bills", ⟨2025, 2, 5, 10, 0, 0⟩, 1⟩]
      = ChangeReport.change
        (100 * ((comparison_totals 2025 3
              [⟨1, 40, "gym", "Bills", ⟨2025, 2, 5, 10, 0, 0⟩, 1⟩]).1
            - (comparison_totals 2025 3
              [⟨1, 40, "gym", "Bills", ⟨2025, 2, 5, 10, 0, 0⟩, 1⟩]).2)
          / (comparison_totals 2025 3
              [⟨1, 40, "gym", "Bills", ⟨2025, 2, 5, 10, 0, 0⟩, 1⟩]).2) :=
  (claim_C8_amended_guard 2025 3
      [⟨1, 40, "gym", "Bills", ⟨2025, 2, 5, 10, 0, 0⟩, 1⟩]).1
    (by simp [comparison_totals, cat_month_total, prevMonth, ymEq, CATEGORIES,
      List.filter_cons])

theorem SDate.dble_iff (a b : SDate) :
    a.ble b = true ↔
      a.year < b.year ∨ (a.year = b.year ∧
        (a.month < b.month ∨ (a.month = b.month ∧ a.day ≤ b.day))) := by
  unfold SDate.ble
  split_ifs <;> simp_all

theorem dayEnd_blt_midnight_iff (s e : SDate) :
    (e.atDayEnd).blt s.atMidnight = true ↔ s.ble e = false := by
  rw [show (s.ble e = false) ↔ ¬(s.ble e = true) by simp, SDate.dble_iff]
  unfold SDate.atDayEnd SDate.atMidnight
  rw [DateTime.blt_iff]
  dsimp only
  omega

theorem midnight_ble_iff (s : SDate) (t : DateTime) :
    (s.atMidnight).ble t = true ↔ s.ble (SDate.of t) = true := by
  unfold SDate.atMidnight SDate.of
  rw [DateTime.ble_iff, SDate.dble_iff]
  dsimp only
  omega

theorem ble_dayEnd_iff (t : DateTime) (e : SDate) (ht : t.wf) :
    t.ble e.atDayEnd = true ↔ (SDate.of t).ble e = true := by
  obtain ⟨-, -, -, -, h5, h6, h7⟩ := ht
  unfold SDate.atDayEnd SDate.of
  rw [DateTime.ble_iff, SDate.dble_iff]
  dsimp only
  omega

/-- C5 counterexample: the Excel export's custom-range query performs no
start/end validation — with start 2025-03-01 after end 2025-02-01 it
produces the empty list as a normal, non-error outcome over a non-empty
store, where the claim demands rejection with a validation error before any
result is produced. -/
theorem claim_C5_counterexample :
    export_custom_range ⟨2025, 3, 1⟩ ⟨2025, 2, 1⟩
      [⟨1, 10, "taxi", "Transport", ⟨2025, 2, 15, 10, 0, 0⟩, 1⟩] = [] := by
  simp [export_custom_range, SDate.atMidnight, SDate.atDayEnd,
    DateTime.ble, List.filter_cons]

/-- C5 (amended): the interactive date-range filter
(`view_expenses_by_date`, custom range) rejects `start > end` with a
validation error before filtering, and otherwise returns exactly the
records whose timestamp's calendar date lies between start and end
inclusive (the end day being widened to 23:59:59); the Excel export's
custom range applies the same inclusive filter but performs no validation,
so an inverted range yields the empty list as a normal outcome. -/
theorem claim_C5_amended_range_filter (s e : SDate) (es : List Expense)
    (hwf : ∀ x ∈ es, x.date.wf) :
    (s.ble e = false → view_expenses_by_date_custom s e es =
      Except.error "Start date must be before end date")
    ∧ (s.ble e = true → view_expenses_by_date_custom s e es =
      Except.ok (export_custom_range s e es))
    ∧ (∀ x ∈ es, x ∈ export_custom_range s e es ↔
        s.ble (SDate.of x.date) = true ∧ (SDate.of x.date).ble e = true) := by
  refine ⟨?_, ?_, ?_⟩
  · intro h
    simp only [view_expenses_by_date_custom]
    rw [if_pos ((dayEnd_blt_midnight_iff s e).mpr h)]
  · intro h
    simp only [view_expenses_by_date_custom]
    rw [if_neg (by rw [dayEnd_blt_midnight_iff]; simp [h])]
    rfl
  · intro x hx
    rw [export_custom_range, List.mem_filter]
    simp only [hx, true_and, Bool.and_eq_true]
    rw [midnight_ble_iff, ble_dayEnd_iff x.date e (hwf x hx)]

/-- Witness for the amended C5: start 2025-03-01 after end 2025-02-01 is
rejected by the interactive filter with the validation error. -/
theorem claim_C5_amended_range_filter_witness :
    view_expenses_by_date_custom ⟨2025, 3, 1⟩ ⟨2025, 2, 1⟩ [] =
      Except.error "Start date must be before end date" :=
  (claim_C5_amended_range_filter ⟨2025, 3, 1⟩ ⟨2025, 2, 1⟩ []
      (by intro x hx; cases hx)).1 (by decide)

/-- C6: the claim says the percentage division runs only when the overall
total is positive, so no division by zero can occur even for months whose
records sum to exactly 0.  The code guards only on `overall_stats[0] is
None`: a January 2025 store holding one record of amount 0 has
`total = some 0`, the guard passes, and the percentage computation divides
by zero (`ZeroDivisionError` in Python). -/
theorem claim_C6_zero_total_divzero :
    show_monthly_report 2025 1
        [⟨1, 0, "freebie", "Food", ⟨2025, 1, 5, 12, 0, 0⟩, 1⟩]
      = Except.error "ZeroDivisionError" := by
  have hsel : monthExpenses 2025 1
      [⟨1, 0, "freebie", "Food", ⟨2025, 1, 5, 12, 0, 0⟩, 1⟩]
      = [⟨1, 0, "freebie", "Food", ⟨2025, 1, 5, 12, 0, 0⟩, 1⟩] := by
    simp [monthExpenses, inMonth, monthStart, nextMonthStart, DateTime.ble,
      DateTime.blt, List.filter_cons]
  simp [show_monthly_report, generate_monthly_report, hsel, overall_stats,
    category_stats, catStat, sortDesc, insertDesc, catLines, pyDiv,
    List.filter_cons, List.dedup_cons_of_not_mem]

theorem breakdown_keys (f : List Expense) (cs : List String) :
    ((cs.filterMap fun c =>
        if (f.filter fun e => e.category == c).length = 0 then none
        else some (c, catSubtotal f c)).map Prod.fst)
      = cs.filter fun c => f.any fun e => e.category == c := by
  induction cs with
  | nil => rfl
  | cons c cs ih =>
    rw [List.filterMap_cons, List.filter_cons]
    by_cases h : (f.filter fun e => e.category == c).length = 0
    · have hany : (f.any fun e => e.category == c) = false := by
        rw [List.length_eq_zero] at h
        rw [List.any_eq_false]
        intro e he
        simpa using List.filter_eq_nil_iff.mp h e he
      rw [if_pos h, hany]
      simpa using ih
    · have hany : (f.any fun e => e.category == c) = true := by
        rw [List.length_eq_zero] at h
        rw [List.any_eq_true]
        obtain ⟨e, he⟩ := List.exists_mem_of_ne_nil _ h
        exact ⟨e, (List.mem_filter.mp he).1, (List.mem_filter.mp he).2⟩
      rw [if_neg h, hany]
      simpa using ih

theorem breakdown_sum_eq (f : List Expense) (cs : List String) :
    ((cs.filterMap fun c =>
        if (f.filter fun e => e.category == c).length = 0 then none
        else some (c, catSubtotal f c)).map Prod.snd).sum
      = (cs.map fun c => catSubtotal f c).sum := by
  induction cs with
  | nil => rfl
  | cons c cs ih =>
    rw [List.filterMap_cons, List.map_cons, List.sum_cons]
    by_cases h : (f.filter fun e => e.category == c).length = 0
    · have h0 : catSubtotal f c = 0 := by
        rw [List.length_eq_zero] at h
        rw [catSubtotal, h]
        rfl
      rw [if_pos h, h0, ih, zero_add]
    · rw [if_neg h]
      simpa using ih

theorem sum_map_addf {α : Type} (l : List α) (g1 g2 : α → Rat) :
    (l.map fun x => g1 x + g2 x).sum = (l.map g1).sum + (l.map g2).sum := by
  induction l with
  | nil => simp
  | cons a l ih =>
    simp only [List.map_cons, List.sum_cons, ih]
    ring

theorem sum_ite_single (cs : List String) (s : String) (a : Rat)
    (hnd : cs.Nodup) (hs : s ∈ cs) :
    (cs.map fun c => if s == c then a else 0).sum = a := by
  induction cs with
  | nil => cases hs
  | cons c cs ih =>
    obtain ⟨hcn, hnd2⟩ := List.nodup_cons.mp hnd
    rw [List.map_cons, List.sum_cons]
    rcases List.mem_cons.mp hs with h | h
    · subst h
      rw [if_pos (by simp)]
      have hz : (cs.map fun c => if s == c then a else 0).sum = 0 := by
        apply List.sum_eq_zero
        intro x hx
        obtain ⟨c2, hc2, rfl⟩ := List.mem_map.mp hx
        rw [if_neg]
        intro hbeq
        exact hcn ((beq_iff_eq.mp hbeq) ▸ hc2)
      rw [hz, add_zero]
    · have hne : ¬((s == c) = true) := by
        intro hbeq
        exact hcn ((beq_iff_eq.mp hbeq) ▸ h)
      rw [if_neg hne, zero_add]
      exact ih hnd2 h

theorem sum_catSubtotal (cs : List String) (hnd : cs.Nodup) :
    ∀ f : List Expense, (∀ e ∈ f, e.category ∈ cs) →
      (cs.map fun c => catSubtotal f c).sum = (f.map fun e => e.amount).sum := by
  intro f
  induction f with
  | nil =>
    intro _
    simp [catSubtotal]
  | cons e f ih =>
    intro hc
    have hstep : ∀ c, catSubtotal (e :: f) c =
        (if e.category == c then e.amount else 0) + catSubtotal f c := by
      intro c
      rw [catSubtotal, catSubtotal, List.filter_cons]
      by_cases h : (e.category == c) = true
      · simp [h]
      · simp [h]
    simp only [hstep]
    rw [sum_map_addf,
      sum_ite_single cs e.category e.amount hnd (hc e (List.mem_cons_self e f)),
      ih (fun x hx => hc x (List.mem_cons_of_mem e hx)),
      List.map_cons, List.sum_cons]

/-- C9: over any already-filtered record set whose categories all lie in the
fixed six-value enumeration, the category breakdown lists exactly the
categories having at least one matching record, in the enumeration order
(it is `CATEGORIES` filtered to the inhabited ones); each listed subtotal is
the sum of that category's amounts; and the subtotals sum to the overall
total of the set. -/
theorem claim_C9_category_breakdown (f : List Expense)
    (hcat : ∀ e ∈ f, e.category ∈ CATEGORIES) :
    ((category_breakdown f).map Prod.fst
      = CATEGORIES.filter fun c => f.any fun e => e.category == c)
    ∧ (∀ p ∈ category_breakdown f, p.2 = catSubtotal f p.1)
    ∧ ((category_breakdown f).map Prod.snd).sum
        = (f.map fun e => e.amount).sum := by
  refine ⟨breakdown_keys f CATEGORIES, ?_, ?_⟩
  · intro p hp
    rw [category_breakdown, List.mem_filterMap] at hp
    obtain ⟨c, -, heq⟩ := hp
    by_cases h : (f.filter fun e => e.category == c).length = 0
    · rw [if_pos h] at heq
      cases heq
    · rw [if_neg h] at heq
      cases heq
      rfl
  · rw [category_breakdown, breakdown_sum_eq f CATEGORIES,
      sum_catSubtotal CATEGORIES (by decide) f hcat]

/-- Witness for C9: a one-record set in category Transport; the breakdown's
subtotals sum to the set's total. -/
theorem claim_C9_category_breakdown_witness :
    ((category_breakdown
        [⟨1, 10, "bus", "Transport", ⟨2025, 5, 2, 8, 0, 0⟩, 1⟩]).map
      Prod.snd).sum
      = ([(⟨1, 10, "bus", "Transport", ⟨2025, 5, 2, 8, 0, 0⟩, 1⟩ : Expense)].map
          fun e => e.amount).sum :=
  (claim_C9_category_breakdown
      [⟨1, 10, "bus", "Transport", ⟨2025, 5, 2, 8, 0, 0⟩, 1⟩]
      (by decide)).2.2

end ExpenseTracker
